import Mathlib

/-!
Shallow embedding of the PKI trust engine of this repository: the
certificate manager (recursive chain verification, trust status lookup,
revocation checks, CRL queue merging), the ASN.1 tag/length reader, and
DER certificate-chain splitting and combining.

Certificates are modelled at the level of their parsed view: a `Cert`
value stands for a single-certificate DER buffer together with the
result of exploreCertificate on it (so `split_der(certificate)[0]` is
the certificate itself) and its SHA-1 fingerprint.  JavaScript maps
keyed by fingerprint are modelled as association lists in insertion
order; JavaScript truthiness of optional strings (undefined and the
empty string are both falsy) is modelled explicitly.
-/

/-- Verification verdict enumeration `VerificationStatus` of the
certificate manager source (14 Bad values plus Good). -/
inductive VerificationStatus where
  | BadCertificateInvalid
  | BadSecurityChecksFailed
  | BadCertificatePolicyCheckFailed
  | BadCertificateTimeInvalid
  | BadCertificateIssuerTimeInvalid
  | BadCertificateHostNameInvalid
  | BadCertificateUriInvalid
  | BadCertificateUseNotAllowed
  | BadCertificateIssuerUseNotAllowed
  | BadCertificateUntrusted
  | BadCertificateRevocationUnknown
  | BadCertificateIssuerRevocationUnknown
  | BadCertificateRevoked
  | BadCertificateIssuerRevoked
  | BadCertificateChainIncomplete
  | Good
deriving DecidableEq, Repr

/-- Result of `_checkRejectedOrTrusted` (the `CertificateStatus` string
values "trusted" / "rejected" / "unknown"). -/
inductive CertificateStatus where
  | trusted
  | rejected
  | unknown
deriving DecidableEq, Repr

/-- Parsed `authorityKeyIdentifier` extension: keyIdentifier, serial and
authorityCertIssuerFingerPrint sub-fields, each optional. -/
structure AuthorityKeyIdentifier where
  keyIdentifier : Option String
  serial : Option String
  authorityCertIssuerFingerPrint : Option String
deriving DecidableEq, Repr

/-- The certificate extensions consulted by the certificate manager. -/
structure CertExtensions where
  subjectKeyIdentifier : Option String
  authorityKeyIdentifier : Option AuthorityKeyIdentifier
deriving DecidableEq, Repr

/-- The fields of the parsed tbsCertificate consulted by the manager.
Times are integers standing for Date.getTime() millisecond values. -/
structure TBSCertificate where
  serialNumber : String
  subjectFingerPrint : String
  commonName : Option String
  notBefore : Int
  notAfter : Int
  extensions : Option CertExtensions
deriving DecidableEq, Repr

/-- A certificate: its DER fingerprint (makeFingerprint) plus its parsed
view (exploreCertificate of the single certificate in the buffer). -/
structure Cert where
  fingerprint : String
  tbs : TBSCertificate
deriving DecidableEq, Repr

/-- A trust-store entry: certificate plus backing filename. -/
structure Entry where
  certificate : Cert
  filename : String
deriving DecidableEq, Repr

/-- One revoked certificate inside a parsed CRL: its serial number
(userCertificate) and revocation date. -/
structure RevokedCertificate where
  userCertificate : String
  revocationDate : Int
deriving DecidableEq, Repr

/-- The parsed CRL fields consulted by the CRL ingestion queue. -/
structure CRLInfo where
  issuerFingerprint : String
  revokedCertificates : List RevokedCertificate
deriving DecidableEq, Repr

/-- A CRL entry of the store: parsed CRL plus backing filename. -/
structure CRLEntry where
  crlInfo : CRLInfo
  filename : String
deriving DecidableEq, Repr

/-- Per-issuer CRL data `CRLData`: serial-to-date map plus list of CRLs. -/
structure CRLData where
  serialNumbers : List (String × Int)
  crls : List CRLEntry
deriving DecidableEq, Repr

/-- The in-memory trust index `Thumbs`: trusted / rejected / issuer
certificates plus the two CRL indices, all keyed by fingerprint. -/
structure Thumbs where
  trusted : List (String × Entry)
  rejected : List (String × Entry)
  issuersCerts : List (String × Entry)
  crl : List (String × CRLData)
  issuersCrl : List (String × CRLData)
deriving DecidableEq, Repr

/-- Lookup of a JavaScript string-keyed map modelled as an association
list (first binding wins, as there is at most one binding per key). -/
def lookupKey {α : Type} (m : List (String × α)) (k : String) : Option α :=
  match m with
  | [] => none
  | (k2, v) :: rest => if k2 = k then some v else lookupKey rest k

/-- Assignment `m[k] = v` on a JavaScript string-keyed map: replaces the
binding in place when the key exists, appends it otherwise. -/
def setKey {α : Type} (m : List (String × α)) (k : String) (v : α) : List (String × α) :=
  match m with
  | [] => [(k, v)]
  | (k2, w) :: rest => if k2 = k then (k, v) :: rest else (k2, w) :: setKey rest k v

/-- Optional chain `info.tbsCertificate.extensions?.subjectKeyIdentifier`. -/
def extSubjectKeyIdentifier (c : Cert) : Option String :=
  match c.tbs.extensions with
  | some e => e.subjectKeyIdentifier
  | none => none

/-- Optional chain `info.tbsCertificate.extensions?.authorityKeyIdentifier`. -/
def extAuthorityKeyIdentifier (c : Cert) : Option AuthorityKeyIdentifier :=
  match c.tbs.extensions with
  | some e => e.authorityKeyIdentifier
  | none => none

/-- Optional chain `extensions?.authorityKeyIdentifier?.keyIdentifier`. -/
def extAuthorityKeyId (c : Cert) : Option String :=
  (extAuthorityKeyIdentifier c).bind (fun a => a.keyIdentifier)

/-- JavaScript truthy value of `extensions?.authorityKeyIdentifier?.keyIdentifier`
(the `hasIssuerKey` / `wantedIssuerKey` local): undefined and the empty
string are falsy. -/
def hasIssuerKeyOpt (c : Cert) : Option String :=
  match extAuthorityKeyId c with
  | some k => if k = "" then none else some k
  | none => none

/-- Boolean form of `hasIssuerKeyOpt`. -/
def hasIssuerKeyB (c : Cert) : Bool :=
  (hasIssuerKeyOpt c).isSome

/-- isSelfSigned2: triple-equality of the subjectKeyIdentifier with the
authorityKeyIdentifier keyIdentifier (two undefined values compare equal,
as in JavaScript). -/
def isSelfSigned2 (c : Cert) : Bool :=
  extSubjectKeyIdentifier c == extAuthorityKeyId c

/-- findMatchingIssuerKey: entries whose parsed certificate has a present
extensions object with subjectKeyIdentifier triple-equal to the wanted key. -/
def findMatchingIssuerKey (entries : List Entry) (wantedIssuerKey : String) : List Entry :=
  entries.filter (fun e =>
    match e.certificate.tbs.extensions with
    | some ext => ext.subjectKeyIdentifier == some wantedIssuerKey
    | none => false)

/-- findIssuerCertificate: a self-signed certificate is its own issuer;
otherwise search the issuer-certificate map then the trusted map for an
entry whose subjectKeyIdentifier matches the wanted authorityKeyIdentifier,
taking the first match. -/
def findIssuerCertificate (t : Thumbs) (certificate : Cert) : Option Cert :=
  if isSelfSigned2 certificate then some certificate
  else
    match hasIssuerKeyOpt certificate with
    | none => none
    | some wantedIssuerKey =>
      let issuerCertificates := t.issuersCerts.map Prod.snd
      match findMatchingIssuerKey issuerCertificates wantedIssuerKey with
      | e :: _ => some e.certificate
      | [] =>
        let trustedCertificates := t.trusted.map Prod.snd
        match findMatchingIssuerKey trustedCertificates wantedIssuerKey with
        | e :: _ => some e.certificate
        | [] => none

/-- _checkRejectedOrTrusted: rejected map is consulted before the trusted
map; certificates in neither are "unknown". -/
def checkRejectedOrTrusted (t : Thumbs) (certificate : Cert) : CertificateStatus :=
  if (lookupKey t.rejected certificate.fingerprint).isSome then CertificateStatus.rejected
  else if (lookupKey t.trusted certificate.fingerprint).isSome then CertificateStatus.trusted
  else CertificateStatus.unknown

/-- _findAssociatedCRLs: look up the issuer certificate's subject
fingerprint in the issuersCrl index, then in the crl index. -/
def findAssociatedCRLs (t : Thumbs) (issuerCertificate : Cert) : Option CRLData :=
  let key := issuerCertificate.tbs.subjectFingerPrint
  match lookupKey t.issuersCrl key with
  | some d => some d
  | none => lookupKey t.crl key

/-- The serial number used by isCertificateRevoked:
serialNumber, falling back to the authorityKeyIdentifier serial, falling
back to the empty string (JavaScript or-chains on possibly-empty strings). -/
def effectiveSerialNumber (c : Cert) : String :=
  if c.tbs.serialNumber ≠ "" then c.tbs.serialNumber
  else (((extAuthorityKeyIdentifier c).bind (fun a => a.serial)).getD "")

/-- The key of the direct crl index consulted by isCertificateRevoked:
the authorityCertIssuerFingerPrint or the marker string when absent. -/
def authorityCertIssuerKey (c : Cert) : String :=
  match (extAuthorityKeyIdentifier c).bind (fun a => a.authorityCertIssuerFingerPrint) with
  | some s => if s = "" then "<unknown>" else s
  | none => "<unknown>"

/-- Membership test of a serial number in a serial-to-date map (revocation
dates are Date objects and hence always truthy). -/
def serialIsListed (d : CRLData) (serialNumber : String) : Bool :=
  (lookupKey d.serialNumbers serialNumber).isSome

/-- Issuer resolution step of isCertificateRevoked: use the explicitly
given issuer certificate when present, else findIssuerCertificate. -/
def resolveIssuer (t : Thumbs) (certificate : Cert) (issuerCertificate : Option Cert) : Option Cert :=
  match issuerCertificate with
  | some ic => some ic
  | none => findIssuerCertificate t certificate

/-- Lookup of the certificate's serial in the direct crl index keyed by
its authorityCertIssuerFingerPrint (the crl2 lookup of isCertificateRevoked). -/
def crl2Listed (t : Thumbs) (certificate : Cert) : Bool :=
  match lookupKey t.crl (authorityCertIssuerKey certificate) with
  | some d => serialIsListed d (effectiveSerialNumber certificate)
  | none => false

/-- isCertificateRevoked: self-signed certificates are never revoked;
otherwise resolve the issuer (chain-incomplete when impossible), find its
CRL data (revocation-unknown when absent), and report revoked exactly when
the serial is listed there or in the direct crl index. -/
def isCertificateRevoked (t : Thumbs) (certificate : Cert)
    (issuerCertificate : Option Cert) : VerificationStatus :=
  if isSelfSigned2 certificate then VerificationStatus.Good
  else
    match resolveIssuer t certificate issuerCertificate with
    | none => VerificationStatus.BadCertificateChainIncomplete
    | some ic =>
      match findAssociatedCRLs t ic with
      | none => VerificationStatus.BadCertificateRevocationUnknown
      | some crls =>
        if serialIsListed crls (effectiveSerialNumber certificate) || crl2Listed t certificate then
          VerificationStatus.BadCertificateRevoked
        else VerificationStatus.Good

/-- Environment of a verification run: the trust index, the external
cryptographic signature check verifyCertificateSignature (first argument
the signed certificate, second the issuer), and the current time. -/
structure Env where
  thumbs : Thumbs
  sigOK : Cert → Cert → Bool
  now : Int

/-- Time-validity check of _innerVerifyCertificateAsync: invalid when the
certificate is not yet active (notBefore after now) or expired (notAfter
at or before now). -/
def isTimeInvalid (now : Int) (certificate : Cert) : Bool :=
  decide (certificate.tbs.notBefore > now) || decide (certificate.tbs.notAfter ≤ now)

/-- The issuer-key block of _innerVerifyCertificateAsync: either an early
verdict, or the pair (hasValidIssuer, hasTrustedIssuer) of flags used by
the final composition.  The recursive verification of the issuer at the
next level is passed in as the function recur. -/
def issuerPhase (env : Env) (recur : Cert → VerificationStatus)
    (certificate : Cert) : Except VerificationStatus (Bool × Bool) :=
  if hasIssuerKeyB certificate then
    if isSelfSigned2 certificate then
      -- self-signed: check the self-signature; the revocation status is
      -- computed in the source but only logged, never acted upon
      if env.sigOK certificate certificate then Except.ok (false, false)
      else Except.error VerificationStatus.BadSecurityChecksFailed
    else
      match findIssuerCertificate env.thumbs certificate with
      | none => Except.error VerificationStatus.BadSecurityChecksFailed
      | some issuerCertificate =>
        let issuerStatus := recur issuerCertificate
        if issuerStatus = VerificationStatus.BadCertificateRevocationUnknown then
          Except.error VerificationStatus.BadCertificateIssuerRevocationUnknown
        else if issuerStatus = VerificationStatus.BadCertificateIssuerRevocationUnknown then
          Except.error VerificationStatus.BadCertificateIssuerRevocationUnknown
        else if issuerStatus = VerificationStatus.BadCertificateTimeInvalid then
          Except.error VerificationStatus.BadCertificateIssuerTimeInvalid
        else if issuerStatus ≠ VerificationStatus.Good ∧
                issuerStatus ≠ VerificationStatus.BadCertificateUntrusted then
          Except.error VerificationStatus.BadSecurityChecksFailed
        else if ¬ env.sigOK certificate issuerCertificate then
          Except.error VerificationStatus.BadSecurityChecksFailed
        else
          let revokedStatus := isCertificateRevoked env.thumbs certificate none
          if revokedStatus = VerificationStatus.BadCertificateRevocationUnknown then
            Except.error VerificationStatus.BadCertificateRevocationUnknown
          else if revokedStatus ≠ VerificationStatus.Good then
            Except.error revokedStatus
          else
            match checkRejectedOrTrusted env.thumbs issuerCertificate with
            | CertificateStatus.unknown => Except.ok (true, false)
            | CertificateStatus.trusted => Except.ok (true, true)
            | CertificateStatus.rejected =>
              Except.error VerificationStatus.BadSecurityChecksFailed
  else Except.ok (false, false)

/-- Final verdict composition of _innerVerifyCertificateAsync given the
flags (hasValidIssuer, hasTrustedIssuer) produced by the issuer phase. -/
def finalPhase (env : Env) (certificate : Cert) (flags : Bool × Bool) : VerificationStatus :=
  let status := checkRejectedOrTrusted env.thumbs certificate
  if status = CertificateStatus.rejected then VerificationStatus.BadCertificateUntrusted
  else
    let timeInvalid := isTimeInvalid env.now certificate
    if status = CertificateStatus.trusted then
      if timeInvalid then VerificationStatus.BadCertificateTimeInvalid
      else VerificationStatus.Good
    else
      if hasIssuerKeyB certificate then
        if ¬ flags.2 then VerificationStatus.BadCertificateUntrusted
        else if ¬ flags.1 then VerificationStatus.BadCertificateUntrusted
        else if timeInvalid then VerificationStatus.BadCertificateTimeInvalid
        else VerificationStatus.Good
      else VerificationStatus.BadCertificateUntrusted

/-- The body of _innerVerifyCertificateAsync below the level guard. -/
def innerVerifyBody (env : Env) (recur : Cert → VerificationStatus)
    (certificate : Cert) : VerificationStatus :=
  match issuerPhase env recur certificate with
  | Except.error v => v
  | Except.ok flags => finalPhase env certificate flags

/-- Recursion of _innerVerifyCertificateAsync, indexed by the remaining
depth 5 - level: zero remaining depth is exactly the guard level >= 5,
and the recursive call at level + 1 has one less remaining depth. -/
def innerVerifyAux (env : Env) : Nat → Cert → VerificationStatus
  | 0, _ => VerificationStatus.BadSecurityChecksFailed
  | k + 1, certificate =>
    innerVerifyBody env (fun ic => innerVerifyAux env k ic) certificate

/-- _innerVerifyCertificateAsync(certificate, isIssuer, level): returns
BadSecurityChecksFailed as soon as level reaches 5, otherwise runs the
body with recursive issuer verification at level + 1.  The isIssuer flag
is threaded exactly as in the source, where it is never read. -/
def innerVerifyCertificateAsync (env : Env) (certificate : Cert)
    (_isIssuer : Bool) (level : Nat) : VerificationStatus :=
  innerVerifyAux env (5 - level) certificate

/-- verifyCertificateAsync: top-level verification starts at level 0 with
isIssuer false. -/
def verifyCertificateAsync (env : Env) (certificate : Cert) : VerificationStatus :=
  innerVerifyCertificateAsync env certificate false 0

/-- verifyCertificate: a missing (null / undefined) certificate short
circuits to BadSecurityChecksFailed through the normal result channel. -/
def verifyCertificate (env : Env) (certificate : Option Cert) : VerificationStatus :=
  match certificate with
  | none => VerificationStatus.BadSecurityChecksFailed
  | some c => verifyCertificateAsync env c

/-- State of a CertificateManager relevant to getCertificateStatus: the
PKI root directory, the untrustUnknownCertificate flag, the trust index,
and the record of PEM files written so far (path and certificate). -/
structure ManagerModel where
  rootDir : String
  untrustUnknownCertificate : Bool
  thumbs : Thumbs
  writtenFiles : List (String × Cert)
deriving DecidableEq, Repr

/-- The rejected folder of the store layout. -/
def rejectedFolder (m : ManagerModel) : String :=
  m.rootDir ++ "/rejected"

/-- buildIdealCertificateName: common name (empty when absent) followed by
the bracketed fingerprint. -/
def buildIdealCertificateName (c : Cert) : String :=
  (c.tbs.commonName.getD "") ++ "[" ++ c.fingerprint ++ "]"

/-- getCertificateStatus: returns the rejected/trusted status; an unknown
certificate is written as a PEM file into the rejected folder, recorded in
the rejected map, and reported as rejected. -/
def getCertificateStatus (m : ManagerModel) (certificate : Cert) :
    ManagerModel × CertificateStatus :=
  match checkRejectedOrTrusted m.thumbs certificate with
  | CertificateStatus.unknown =>
    let fingerprint := certificate.fingerprint
    let filename := rejectedFolder m ++ "/" ++ buildIdealCertificateName certificate ++ ".pem"
    ({ m with
        writtenFiles := m.writtenFiles ++ [(filename, certificate)],
        thumbs := { m.thumbs with
          rejected := setKey m.thumbs.rejected fingerprint ⟨certificate, filename⟩ } },
      CertificateStatus.rejected)
  | s => (m, s)

/-- Serial-number merge loop of _process_next_crl: a serial already bound
keeps its revocation date (existing Date values are truthy), an unbound
serial is added. -/
def injectSerialNumbers (serialNumbers : List (String × Int))
    (revoked : List RevokedCertificate) : List (String × Int) :=
  revoked.foldl
    (fun acc rc =>
      if (lookupKey acc rc.userCertificate).isSome then acc
      else acc ++ [(rc.userCertificate, rc.revocationDate)])
    serialNumbers

/-- The indexing step of _process_next_crl for one successfully parsed CRL
item: create the per-issuer CRLData when absent, push the CRL entry, and
merge its revoked serial numbers. -/
def processCrlInfo (index : List (String × CRLData)) (crlInfo : CRLInfo)
    (filename : String) : List (String × CRLData) :=
  let fingerprint := crlInfo.issuerFingerprint
  let d := (lookupKey index fingerprint).getD ⟨[], []⟩
  let d2 : CRLData :=
    { serialNumbers := injectSerialNumbers d.serialNumbers crlInfo.revokedCertificates,
      crls := d.crls ++ [⟨crlInfo, filename⟩] }
  setKey index fingerprint d2

/-- Block descriptor returned by readTag: tag byte, the position just past
the length field, and the declared content length. -/
structure BlockInfo where
  tag : Nat
  position : Nat
  length : Nat
deriving DecidableEq, Repr

/-- The long-form length loop of readTag: read the given number of bytes,
folding them into a big-endian integer, and return the value together
with the advanced position; fails when a read is out of range. -/
def readBE (buf : List Nat) : Nat → Nat → Nat → Option (Nat × Nat)
  | pos, 0, acc => some (acc, pos)
  | pos, n + 1, acc =>
    match buf[pos]? with
    | none => none
    | some b => readBE buf (pos + 1) n (acc * 256 + b)

/-- readTag(buffer, position): fails on an out-of-range position, reads
one tag byte and one length byte; a length byte above 127 announces, in
its low 7 bits, the count of following big-endian length bytes. -/
def readTag (buf : List Nat) (pos : Nat) : Option BlockInfo :=
  if buf.length ≤ pos then none
  else
    match buf[pos]? with
    | none => none
    | some tag =>
      match buf[pos + 1]? with
      | none => none
      | some lenByte =>
        if 127 < lenByte then
          match readBE buf (pos + 2) (Nat.land lenByte 127) 0 with
          | none => none
          | some (len, pos2) => some { tag := tag, position := pos2, length := len }
        else some { tag := tag, position := pos + 2, length := lenByte }

/-- Loop of split_der, with a fuel argument bounding the number of slices
(the source loop terminates because every successfully read block consumes
at least the two header bytes; a buffer of length n never holds more than
n top-level blocks, so fuel equal to the buffer length never runs out on
inputs the source accepts). -/
def splitDerAux : Nat → List Nat → Option (List (List Nat))
  | 0, _ => none
  | fuel + 1, buf =>
    match readTag buf 0 with
    | none => none
    | some blockInfo =>
      let len := blockInfo.position + blockInfo.length
      let derCertificate := buf.take len
      let rest := buf.drop len
      if rest.isEmpty then some [derCertificate]
      else
        match splitDerAux fuel rest with
        | none => none
        | some chain => some (derCertificate :: chain)

/-- split_der: repeatedly read one top-level block at offset 0 and slice
it off until the buffer is exhausted; fails (the source throws) on an
empty buffer or an unreadable header. -/
def split_der (buf : List Nat) : Option (List (List Nat)) :=
  splitDerAux buf.length buf

/-- A buffer that is exactly one well-formed top-level TLV block: its
header parses and the header-declared extent is exactly the buffer. -/
def tlvBlock (b : List Nat) : Bool :=
  match readTag b 0 with
  | none => false
  | some bi => bi.position + bi.length == b.length

/-- Sanity check of combine_der for one certificate of the list: it
splits, every piece is a whole block, and the piece lengths sum back to
the certificate length (source asserts). -/
def combineCheck (cert : List Nat) : Bool :=
  match split_der cert with
  | none => false
  | some blocks =>
    blocks.all (fun b =>
      match readTag b 0 with
      | none => false
      | some bi => bi.position + bi.length == b.length)
    && (blocks.foldl (fun s b => s + b.length) 0 == cert.length)

/-- combine_der: concatenation of the certificates after the per-element
sanity check (a failed assert in the source throws). -/
def combine_der (certificates : List (List Nat)) : Option (List Nat) :=
  if certificates.all combineCheck then some certificates.flatten else none

/-- Helper building a certificate with the given fingerprint, subject key
identifier, authority key identifier and subject fingerprint, valid over
times 0 to 100. -/
def mkCert (fp : String) (skid : Option String) (akid : Option String)
    (sfp : String) : Cert :=
  { fingerprint := fp,
    tbs := { serialNumber := "sn" ++ fp,
             subjectFingerPrint := sfp,
             commonName := none,
             notBefore := 0,
             notAfter := 100,
             extensions := some
               { subjectKeyIdentifier := skid,
                 authorityKeyIdentifier :=
                   akid.map (fun k =>
                     { keyIdentifier := some k, serial := none,
                       authorityCertIssuerFingerPrint := none }) } } }

/-- An empty trust index. -/
def emptyThumbs : Thumbs :=
  { trusted := [], rejected := [], issuersCerts := [], crl := [], issuersCrl := [] }

/-- A certificate carrying a subject key but no authorityKeyIdentifier. -/
def noAkiCert : Cert := mkCert "fT" (some "kT") none "sfT"

/-- Environment whose trusted map holds exactly noAkiCert. -/
def trustedNoAkiEnv : Env :=
  { thumbs := { emptyThumbs with trusted := [("fT", ⟨noAkiCert, "fT.pem"⟩)] },
    sigOK := fun _ _ => true,
    now := 50 }

/-- Environment with an empty trust index. -/
def emptyEnv : Env :=
  { thumbs := emptyThumbs, sigOK := fun _ _ => true, now := 50 }

/-- Six certificates forming a cyclic issuer chain: each one names the
next one's subject key as its authority key. -/
def chainCert0 : Cert := mkCert "f0" (some "k0") (some "k1") "sf0"

/-- Link 1 of the cyclic chain. -/
def chainCert1 : Cert := mkCert "f1" (some "k1") (some "k2") "sf1"

/-- Link 2 of the cyclic chain. -/
def chainCert2 : Cert := mkCert "f2" (some "k2") (some "k3") "sf2"

/-- Link 3 of the cyclic chain. -/
def chainCert3 : Cert := mkCert "f3" (some "k3") (some "k4") "sf3"

/-- Link 4 of the cyclic chain. -/
def chainCert4 : Cert := mkCert "f4" (some "k4") (some "k5") "sf4"

/-- Link 5 of the cyclic chain, closing the cycle back to link 0. -/
def chainCert5 : Cert := mkCert "f5" (some "k5") (some "k0") "sf5"

/-- Environment whose issuer-certificate map holds the six cyclic chain
links, with all signatures accepted. -/
def chainEnv : Env :=
  { thumbs := { emptyThumbs with issuersCerts :=
      [("f0", ⟨chainCert0, "f0.pem"⟩), ("f1", ⟨chainCert1, "f1.pem"⟩),
       ("f2", ⟨chainCert2, "f2.pem"⟩), ("f3", ⟨chainCert3, "f3.pem"⟩),
       ("f4", ⟨chainCert4, "f4.pem"⟩), ("f5", ⟨chainCert5, "f5.pem"⟩)] },
    sigOK := fun _ _ => true,
    now := 50 }

/-- A self-signed root with no CRL data indexed for it. -/
def rootCert : Cert := mkCert "g3" (some "k13") (some "k13") "sg3"

/-- Certificate issued by rootCert. -/
def midCert2 : Cert := mkCert "g2" (some "k12") (some "k13") "sg2"

/-- Certificate issued by midCert2. -/
def midCert1 : Cert := mkCert "g1" (some "k11") (some "k12") "sg1"

/-- Certificate issued by midCert1. -/
def leafCert : Cert := mkCert "g0" (some "k10") (some "k11") "sg0"

/-- Environment whose issuer-certificate map holds the three issuers of
the leaf, with no CRL indexed anywhere. -/
def issuerChainEnv : Env :=
  { thumbs := { emptyThumbs with issuersCerts :=
      [("g1", ⟨midCert1, "g1.pem"⟩), ("g2", ⟨midCert2, "g2.pem"⟩),
       ("g3", ⟨rootCert, "g3.pem"⟩)] },
    sigOK := fun _ _ => true,
    now := 50 }

/-- A trusted certificate whose authority key matches no stored issuer. -/
def danglingIssuerCert : Cert := mkCert "fI" (some "kI") (some "kX") "sfI"

/-- Environment whose trusted map holds exactly danglingIssuerCert. -/
def danglingIssuerEnv : Env :=
  { thumbs := { emptyThumbs with trusted := [("fI", ⟨danglingIssuerCert, "fI.pem"⟩)] },
    sigOK := fun _ _ => true,
    now := 50 }

/-- A trusted certificate with no authority key identifier at all. -/
def trustedPlainCert : Cert := mkCert "fW" (some "kW") none "sfW"

/-- Environment whose trusted map holds exactly trustedPlainCert. -/
def trustedPlainEnv : Env :=
  { thumbs := { emptyThumbs with trusted := [("fW", ⟨trustedPlainCert, "fW.pem"⟩)] },
    sigOK := fun _ _ => true,
    now := 50 }

/-- Self-signed issuer with subject fingerprint FJ. -/
def issuerJ : Cert := mkCert "fJ" (some "kJ") (some "kJ") "FJ"

/-- Certificate under issuerJ with serial 01:02:03. -/
def revokedChild : Cert :=
  { fingerprint := "fK",
    tbs := { serialNumber := "01:02:03", subjectFingerPrint := "sfK",
             commonName := none, notBefore := 0, notAfter := 100,
             extensions := some
               { subjectKeyIdentifier := some "kK",
                 authorityKeyIdentifier := some
                   { keyIdentifier := some "kJ", serial := none,
                     authorityCertIssuerFingerPrint := none } } } }

/-- Certificate under issuerJ with serial 0A:0B, not listed in any CRL. -/
def cleanChild : Cert :=
  { fingerprint := "fL",
    tbs := { serialNumber := "0A:0B", subjectFingerPrint := "sfL",
             commonName := none, notBefore := 0, notAfter := 100,
             extensions := some
               { subjectKeyIdentifier := some "kL",
                 authorityKeyIdentifier := some
                   { keyIdentifier := some "kJ", serial := none,
                     authorityCertIssuerFingerPrint := none } } } }

/-- CRL data listing serial 01:02:03 under issuer fingerprint FJ. -/
def crlDataJ : CRLData := { serialNumbers := [("01:02:03", 10)], crls := [] }

/-- Trust index with issuerJ stored as issuer and its CRL data indexed
under FJ in the issuer-CRL index. -/
def revocationThumbs : Thumbs :=
  { emptyThumbs with
    issuersCerts := [("fJ", ⟨issuerJ, "fJ.pem"⟩)],
    issuersCrl := [("FJ", crlDataJ)] }

/-- Manager with an empty index and the first-sighting opt-out flag off. -/
def freshManager : ManagerModel :=
  { rootDir := "pki", untrustUnknownCertificate := false,
    thumbs := emptyThumbs, writtenFiles := [] }

/-- A certificate never seen by freshManager. -/
def freshCert : Cert := mkCert "fF" (some "kF") none "sfF"

/-- A CRL index holding serial s1 with date 5 under issuer fp1. -/
def crlIndex0 : List (String × CRLData) :=
  [("fp1", ⟨[("s1", 5)], []⟩)]

/-- A further CRL item for issuer fp1 listing serial s1 again (with a
different date) and the new serial s2. -/
def crlInfoX : CRLInfo :=
  { issuerFingerprint := "fp1",
    revokedCertificates := [⟨"s1", 99⟩, ⟨"s2", 7⟩] }

/-- Unfolding lemma: below the depth bound, one verification step is the
body with recursive issuer verification at the next level. -/
theorem innerVerify_eq_body (env : Env) (certificate : Cert) (isIssuer : Bool)
    (level : Nat) (h : level < 5) :
    innerVerifyCertificateAsync env certificate isIssuer level
      = innerVerifyBody env
          (fun ic => innerVerifyCertificateAsync env ic true (level + 1)) certificate := by
  have h1 : 5 - level = (4 - level) + 1 := by omega
  have h2 : 5 - (level + 1) = 4 - level := by omega
  simp only [innerVerifyCertificateAsync, h1, h2, innerVerifyAux]

/-- C10: verifyCertificate with a missing certificate reports
BadSecurityChecksFailed through the normal result channel, a value of the
same closed verdict enumeration as every other outcome. -/
theorem verify_missing_certificate (env : Env) :
    verifyCertificate env none = VerificationStatus.BadSecurityChecksFailed := rfl

/-- C2: at level 5 or deeper, verification returns BadSecurityChecksFailed
without recursing; consequently a synthetic cyclic issuer chain of six
links terminates with BadSecurityChecksFailed. -/
theorem chain_depth_bound (env : Env) (certificate : Cert) (isIssuer : Bool)
    (level : Nat) (h : 5 ≤ level) :
    innerVerifyCertificateAsync env certificate isIssuer level
        = VerificationStatus.BadSecurityChecksFailed
      ∧ verifyCertificateAsync chainEnv chainCert0
        = VerificationStatus.BadSecurityChecksFailed := by
  constructor
  · have h0 : 5 - level = 0 := by omega
    unfold innerVerifyCertificateAsync
    rw [h0]
    rfl
  · decide

/-- Witness for C2 at level 5 on a concrete chain link. -/
theorem chain_depth_bound_witness :
    innerVerifyCertificateAsync chainEnv chainCert0 false 5
        = VerificationStatus.BadSecurityChecksFailed
      ∧ verifyCertificateAsync chainEnv chainCert0
        = VerificationStatus.BadSecurityChecksFailed :=
  chain_depth_bound chainEnv chainCert0 false 5 (by decide)

/-- C1 counterexample: a time-valid certificate with no
authorityKeyIdentifier keyIdentifier whose fingerprint is in the trusted
map is judged Good, not BadCertificateUntrusted. -/
theorem no_issuer_key_counterexample :
    hasIssuerKeyOpt noAkiCert = none
      ∧ (lookupKey trustedNoAkiEnv.thumbs.trusted noAkiCert.fingerprint).isSome = true
      ∧ innerVerifyCertificateAsync trustedNoAkiEnv noAkiCert false 0
          = VerificationStatus.Good
      ∧ VerificationStatus.Good ≠ VerificationStatus.BadCertificateUntrusted := by
  decide

/-- C1 amended: a certificate with no authorityKeyIdentifier keyIdentifier
is judged BadCertificateUntrusted at every level below 5 whenever its
fingerprint is in the rejected map or absent from the trusted map; a
trusted, non-rejected fingerprint instead yields Good or
BadCertificateTimeInvalid. -/
theorem no_issuer_key_untrusted (env : Env) (certificate : Cert) (isIssuer : Bool)
    (level : Nat) (hlvl : level < 5)
    (hik : hasIssuerKeyOpt certificate = none)
    (hnt : (lookupKey env.thumbs.rejected certificate.fingerprint).isSome = true
         ∨ (lookupKey env.thumbs.trusted certificate.fingerprint).isSome = false) :
    innerVerifyCertificateAsync env certificate isIssuer level
      = VerificationStatus.BadCertificateUntrusted := by
  rw [innerVerify_eq_body env certificate isIssuer level hlvl]
  have hb : hasIssuerKeyB certificate = false := by
    simp [hasIssuerKeyB, hik]
  unfold innerVerifyBody issuerPhase finalPhase checkRejectedOrTrusted
  rcases hnt with h | h
  · simp [hb, h]
  · by_cases hr : (lookupKey env.thumbs.rejected certificate.fingerprint).isSome
    · simp [hb, hr]
    · simp [hb, hr, h]

/-- Witness for the amended C1 on a concrete unknown certificate. -/
theorem no_issuer_key_untrusted_witness :
    innerVerifyCertificateAsync emptyEnv noAkiCert false 0
      = VerificationStatus.BadCertificateUntrusted :=
  no_issuer_key_untrusted emptyEnv noAkiCert false 0 (by decide) (by decide)
    (Or.inr (by decide))

/-- C4 counterexample: an issuer whose recursive verdict is
BadCertificateIssuerRevocationUnknown makes the child verdict
BadCertificateIssuerRevocationUnknown as well, not
BadSecurityChecksFailed as claimed. -/
theorem issuer_verdict_mapping_counterexample :
    findIssuerCertificate issuerChainEnv.thumbs leafCert = some midCert1
      ∧ innerVerifyCertificateAsync issuerChainEnv midCert1 true 1
        = VerificationStatus.BadCertificateIssuerRevocationUnknown
      ∧ innerVerifyCertificateAsync issuerChainEnv leafCert false 0
        = VerificationStatus.BadCertificateIssuerRevocationUnknown
      ∧ VerificationStatus.BadCertificateIssuerRevocationUnknown
        ≠ VerificationStatus.BadSecurityChecksFailed := by
  decide

/-- C4 amended: for a non-self-signed certificate with a resolvable
issuer, at level below 5, the recursive issuer verdict is mapped onto the
child verdict as follows: BadCertificateRevocationUnknown or
BadCertificateIssuerRevocationUnknown give
BadCertificateIssuerRevocationUnknown; BadCertificateTimeInvalid gives
BadCertificateIssuerTimeInvalid; any other verdict besides Good and
BadCertificateUntrusted gives BadSecurityChecksFailed; only for Good or
BadCertificateUntrusted is the child-to-issuer signature checked, failing
closed with BadSecurityChecksFailed on mismatch. -/
theorem issuer_verdict_mapping (env : Env) (certificate : Cert) (isIssuer : Bool)
    (level : Nat) (ic : Cert) (is2 : VerificationStatus)
    (hlvl : level < 5)
    (hik : hasIssuerKeyB certificate = true)
    (hss : isSelfSigned2 certificate = false)
    (hic : findIssuerCertificate env.thumbs certificate = some ic)
    (hs : innerVerifyCertificateAsync env ic true (level + 1) = is2) :
    ((is2 = VerificationStatus.BadCertificateRevocationUnknown
        ∨ is2 = VerificationStatus.BadCertificateIssuerRevocationUnknown) →
      innerVerifyCertificateAsync env certificate isIssuer level
        = VerificationStatus.BadCertificateIssuerRevocationUnknown)
    ∧ (is2 = VerificationStatus.BadCertificateTimeInvalid →
      innerVerifyCertificateAsync env certificate isIssuer level
        = VerificationStatus.BadCertificateIssuerTimeInvalid)
    ∧ (is2 ≠ VerificationStatus.Good →
      is2 ≠ VerificationStatus.BadCertificateUntrusted →
      is2 ≠ VerificationStatus.BadCertificateRevocationUnknown →
      is2 ≠ VerificationStatus.BadCertificateIssuerRevocationUnknown →
      is2 ≠ VerificationStatus.BadCertificateTimeInvalid →
      innerVerifyCertificateAsync env certificate isIssuer level
        = VerificationStatus.BadSecurityChecksFailed)
    ∧ ((is2 = VerificationStatus.Good ∨ is2 = VerificationStatus.BadCertificateUntrusted) →
      env.sigOK certificate ic = false →
      innerVerifyCertificateAsync env certificate isIssuer level
        = VerificationStatus.BadSecurityChecksFailed) := by
  rw [innerVerify_eq_body env certificate isIssuer level hlvl]
  refine ⟨?_, ?_, ?_, ?_⟩
  · rintro (rfl | rfl) <;>
      simp [innerVerifyBody, issuerPhase, hik, hss, hic, hs]
  · rintro rfl
    simp [innerVerifyBody, issuerPhase, hik, hss, hic, hs]
  · intro h1 h2 h3 h4 h5
    simp [innerVerifyBody, issuerPhase, hik, hss, hic, hs, h1, h2, h3, h4, h5]
  · rintro (rfl | rfl) hsig <;>
      simp [innerVerifyBody, issuerPhase, hik, hss, hic, hs, hsig]

/-- Witness for the amended C4 on the concrete issuer chain. -/
theorem issuer_verdict_mapping_witness :
    innerVerifyCertificateAsync issuerChainEnv leafCert false 0
      = VerificationStatus.BadCertificateIssuerRevocationUnknown :=
  (issuer_verdict_mapping issuerChainEnv leafCert false 0 midCert1
      VerificationStatus.BadCertificateIssuerRevocationUnknown
      (by decide) (by decide) (by decide) (by decide) (by decide)).1
    (Or.inr rfl)

/-- C6 counterexample: a trusted, time-valid certificate whose authority
key matches no stored issuer is judged BadSecurityChecksFailed, not Good:
the trusted-map clause of the claim fails whenever the issuer-key block
exits early. -/
theorem trusted_time_validity_counterexample :
    (lookupKey danglingIssuerEnv.thumbs.trusted danglingIssuerCert.fingerprint).isSome = true
      ∧ isTimeInvalid danglingIssuerEnv.now danglingIssuerCert = false
      ∧ innerVerifyCertificateAsync danglingIssuerEnv danglingIssuerCert false 0
        = VerificationStatus.BadSecurityChecksFailed
      ∧ VerificationStatus.BadSecurityChecksFailed ≠ VerificationStatus.Good := by
  decide

/-- C6 amended: time-validity is the half-open test notBefore at or
before now, now strictly before notAfter; and a certificate whose
fingerprint is in the trusted map and not in the rejected map, at level
below 5, whose issuer-key block completes without an early verdict, is
judged Good exactly when time-valid and BadCertificateTimeInvalid
otherwise. -/
theorem trusted_time_validity (env : Env) (certificate : Cert) (isIssuer : Bool)
    (level : Nat) (flags : Bool × Bool)
    (hlvl : level < 5)
    (hphase : issuerPhase env
        (fun ic => innerVerifyCertificateAsync env ic true (level + 1)) certificate
      = Except.ok flags)
    (htr : (lookupKey env.thumbs.trusted certificate.fingerprint).isSome = true)
    (hrj : (lookupKey env.thumbs.rejected certificate.fingerprint).isSome = false) :
    (isTimeInvalid env.now certificate = false
        ↔ certificate.tbs.notBefore ≤ env.now ∧ env.now < certificate.tbs.notAfter)
      ∧ innerVerifyCertificateAsync env certificate isIssuer level
        = (if isTimeInvalid env.now certificate
           then VerificationStatus.BadCertificateTimeInvalid
           else VerificationStatus.Good) := by
  constructor
  · constructor
    · intro h
      simp [isTimeInvalid] at h
      omega
    · intro h
      simp [isTimeInvalid]
      omega
  · rw [innerVerify_eq_body env certificate isIssuer level hlvl]
    unfold innerVerifyBody
    rw [hphase]
    unfold finalPhase checkRejectedOrTrusted
    simp [htr, hrj]

/-- Witness for the amended C6 on a concrete trusted certificate. -/
theorem trusted_time_validity_witness :
    (isTimeInvalid trustedPlainEnv.now trustedPlainCert = false
        ↔ trustedPlainCert.tbs.notBefore ≤ trustedPlainEnv.now
            ∧ trustedPlainEnv.now < trustedPlainCert.tbs.notAfter)
      ∧ innerVerifyCertificateAsync trustedPlainEnv trustedPlainCert false 0
        = (if isTimeInvalid trustedPlainEnv.now trustedPlainCert
           then VerificationStatus.BadCertificateTimeInvalid
           else VerificationStatus.Good) :=
  trusted_time_validity trustedPlainEnv trustedPlainCert false 0 (false, false)
    (by decide) (by rfl) (by decide) (by decide)

/-- Setting a key makes it immediately visible to lookup. -/
theorem lookupKey_setKey {α : Type} (m : List (String × α)) (k : String) (v : α) :
    lookupKey (setKey m k v) k = some v := by
  induction m with
  | nil => simp [setKey, lookupKey]
  | cons p rest ih =>
    obtain ⟨k2, w⟩ := p
    by_cases hk : k2 = k <;> simp [setKey, lookupKey, hk, ih]

/-- A binding present on the left of an append is still found. -/
theorem lookupKey_append_some {α : Type} (m m2 : List (String × α)) (k : String) (v : α)
    (h : lookupKey m k = some v) : lookupKey (m ++ m2) k = some v := by
  induction m with
  | nil => simp [lookupKey] at h
  | cons p rest ih =>
    obtain ⟨k2, w⟩ := p
    by_cases hk : k2 = k <;> simp_all [lookupKey, hk]

/-- A key absent on the left of an append is looked up on the right. -/
theorem lookupKey_append_none {α : Type} (m m2 : List (String × α)) (k : String)
    (h : lookupKey m k = none) : lookupKey (m ++ m2) k = lookupKey m2 k := by
  induction m with
  | nil => rfl
  | cons p rest ih =>
    obtain ⟨k2, w⟩ := p
    by_cases hk : k2 = k <;> simp_all [lookupKey, hk]

/-- The serial merge loop never overwrites an existing binding. -/
theorem injectSerialNumbers_preserves (revoked : List RevokedCertificate)
    (sn : List (String × Int)) (s : String) (d : Int)
    (h : lookupKey sn s = some d) :
    lookupKey (injectSerialNumbers sn revoked) s = some d := by
  induction revoked generalizing sn with
  | nil => simpa [injectSerialNumbers] using h
  | cons rc rest ih =>
    have hstep : injectSerialNumbers sn (rc :: rest)
        = injectSerialNumbers
            (if (lookupKey sn rc.userCertificate).isSome then sn
             else sn ++ [(rc.userCertificate, rc.revocationDate)]) rest := rfl
    rw [hstep]
    by_cases hx : (lookupKey sn rc.userCertificate).isSome
    · rw [if_pos hx]; exact ih sn h
    · rw [if_neg hx]; exact ih _ (lookupKey_append_some _ _ _ _ h)

/-- A key already present stays present through the serial merge loop. -/
theorem injectSerialNumbers_isSome (revoked : List RevokedCertificate)
    (sn : List (String × Int)) (s : String)
    (h : (lookupKey sn s).isSome = true) :
    (lookupKey (injectSerialNumbers sn revoked) s).isSome = true := by
  obtain ⟨d, hd⟩ := Option.isSome_iff_exists.mp h
  rw [injectSerialNumbers_preserves revoked sn s d hd]
  rfl

/-- Every serial listed in the drained item is present after the merge. -/
theorem injectSerialNumbers_adds (revoked : List RevokedCertificate)
    (sn : List (String × Int)) (s : String)
    (h : s ∈ revoked.map RevokedCertificate.userCertificate) :
    (lookupKey (injectSerialNumbers sn revoked) s).isSome = true := by
  induction revoked generalizing sn with
  | nil => simp at h
  | cons rc rest ih =>
    have hstep : injectSerialNumbers sn (rc :: rest)
        = injectSerialNumbers
            (if (lookupKey sn rc.userCertificate).isSome then sn
             else sn ++ [(rc.userCertificate, rc.revocationDate)]) rest := rfl
    rw [hstep]
    simp only [List.map_cons, List.mem_cons] at h
    rcases h with rfl | h
    · by_cases hx : (lookupKey sn rc.userCertificate).isSome
      · rw [if_pos hx]; exact injectSerialNumbers_isSome rest sn _ hx
      · rw [if_neg hx]
        apply injectSerialNumbers_isSome
        rw [lookupKey_append_none _ _ _ (Option.not_isSome_iff_eq_none.mp (by simpa using hx))]
        simp [lookupKey]
    · by_cases hx : (lookupKey sn rc.userCertificate).isSome
      · rw [if_pos hx]; exact ih sn h
      · rw [if_neg hx]; exact ih _ h

/-- C9: CRL queue drain preserves existing revocation entries: a serial
already bound in the issuer's serial-to-date map keeps its date when a
further CRL item lists the same serial, while listed serials not yet
present are added. -/
theorem crl_merge_first_writer_wins (index : List (String × CRLData)) (crlInfo : CRLInfo)
    (filename s : String) :
    (∀ d : Int,
        lookupKey ((lookupKey index crlInfo.issuerFingerprint).getD ⟨[], []⟩).serialNumbers s
          = some d →
        lookupKey ((lookupKey (processCrlInfo index crlInfo filename)
            crlInfo.issuerFingerprint).getD ⟨[], []⟩).serialNumbers s = some d)
    ∧ (lookupKey ((lookupKey index crlInfo.issuerFingerprint).getD ⟨[], []⟩).serialNumbers s
          = none →
        s ∈ crlInfo.revokedCertificates.map RevokedCertificate.userCertificate →
        (lookupKey ((lookupKey (processCrlInfo index crlInfo filename)
            crlInfo.issuerFingerprint).getD ⟨[], []⟩).serialNumbers s).isSome = true) := by
  have hset : lookupKey (processCrlInfo index crlInfo filename) crlInfo.issuerFingerprint
      = some { serialNumbers := injectSerialNumbers
                 ((lookupKey index crlInfo.issuerFingerprint).getD ⟨[], []⟩).serialNumbers
                 crlInfo.revokedCertificates,
               crls := ((lookupKey index crlInfo.issuerFingerprint).getD ⟨[], []⟩).crls
                 ++ [⟨crlInfo, filename⟩] } := by
    unfold processCrlInfo
    exact lookupKey_setKey _ _ _
  constructor
  · intro d hd
    rw [hset]
    exact injectSerialNumbers_preserves _ _ _ _ hd
  · intro _ hmem
    rw [hset]
    exact injectSerialNumbers_adds _ _ _ hmem

/-- Witness for C9: a further CRL item listing serial s1 with a new date
leaves the original date, and adds the fresh serial s2. -/
theorem crl_merge_first_writer_wins_witness :
    lookupKey ((lookupKey (processCrlInfo crlIndex0 crlInfoX "crl2.pem")
        crlInfoX.issuerFingerprint).getD ⟨[], []⟩).serialNumbers "s1" = some 5
      ∧ (lookupKey ((lookupKey (processCrlInfo crlIndex0 crlInfoX "crl2.pem")
          crlInfoX.issuerFingerprint).getD ⟨[], []⟩).serialNumbers "s2").isSome = true :=
  ⟨(crl_merge_first_writer_wins crlIndex0 crlInfoX "crl2.pem" "s1").1 5 (by decide),
   (crl_merge_first_writer_wins crlIndex0 crlInfoX "crl2.pem" "s2").2 (by decide) (by decide)⟩

/-- C3: isCertificateRevoked case analysis: Good for self-signed
certificates; chain-incomplete when no issuer is given or found;
revocation-unknown when the resolved issuer has no indexed CRL data;
revoked exactly when the serial is listed in the resolved serial-to-date
map or in the direct crl index; Good otherwise. -/
theorem revocation_check (t : Thumbs) (certificate : Cert)
    (issuerCertificate : Option Cert) :
    (isSelfSigned2 certificate = true →
        isCertificateRevoked t certificate issuerCertificate = VerificationStatus.Good)
    ∧ (isSelfSigned2 certificate = false →
        resolveIssuer t certificate issuerCertificate = none →
        isCertificateRevoked t certificate issuerCertificate
          = VerificationStatus.BadCertificateChainIncomplete)
    ∧ (∀ ic : Cert, isSelfSigned2 certificate = false →
        resolveIssuer t certificate issuerCertificate = some ic →
        findAssociatedCRLs t ic = none →
        isCertificateRevoked t certificate issuerCertificate
          = VerificationStatus.BadCertificateRevocationUnknown)
    ∧ (∀ (ic : Cert) (crls : CRLData), isSelfSigned2 certificate = false →
        resolveIssuer t certificate issuerCertificate = some ic →
        findAssociatedCRLs t ic = some crls →
        (serialIsListed crls (effectiveSerialNumber certificate) = true
          ∨ crl2Listed t certificate = true) →
        isCertificateRevoked t certificate issuerCertificate
          = VerificationStatus.BadCertificateRevoked)
    ∧ (∀ (ic : Cert) (crls : CRLData), isSelfSigned2 certificate = false →
        resolveIssuer t certificate issuerCertificate = some ic →
        findAssociatedCRLs t ic = some crls →
        serialIsListed crls (effectiveSerialNumber certificate) = false →
        crl2Listed t certificate = false →
        isCertificateRevoked t certificate issuerCertificate
          = VerificationStatus.Good) := by
  refine ⟨?_, ?_, ?_, ?_, ?_⟩
  · intro h
    simp [isCertificateRevoked, h]
  · intro h1 h2
    simp [isCertificateRevoked, h1, h2]
  · intro ic h1 h2 h3
    simp [isCertificateRevoked, h1, h2, h3]
  · intro ic crls h1 h2 h3 h4
    rcases h4 with h4 | h4 <;> simp [isCertificateRevoked, h1, h2, h3, h4]
  · intro ic crls h1 h2 h3 h4 h5
    simp [isCertificateRevoked, h1, h2, h3, h4, h5]

/-- Witness for C3: the spec scenario with a CRL listing serial 01:02:03
under issuer fingerprint FJ. -/
theorem revocation_check_witness :
    isCertificateRevoked revocationThumbs issuerJ none = VerificationStatus.Good
      ∧ isCertificateRevoked revocationThumbs revokedChild (some issuerJ)
        = VerificationStatus.BadCertificateRevoked
      ∧ isCertificateRevoked revocationThumbs cleanChild (some issuerJ)
        = VerificationStatus.Good :=
  ⟨(revocation_check revocationThumbs issuerJ none).1 (by decide),
   (revocation_check revocationThumbs revokedChild (some issuerJ)).2.2.2.1 issuerJ crlDataJ
     (by decide) (by decide) (by decide) (Or.inl (by decide)),
   (revocation_check revocationThumbs cleanChild (some issuerJ)).2.2.2.2 issuerJ crlDataJ
     (by decide) (by decide) (by decide) (by decide) (by decide)⟩

/-- C5 counterexample: with the untrustUnknownCertificate flag switched
off, getCertificateStatus still persists a never-seen certificate into
the rejected folder and returns rejected: the opt-out flag does not
disable the first-sighting persistence of getCertificateStatus. -/
theorem unknown_persistence_counterexample :
    freshManager.untrustUnknownCertificate = false
      ∧ checkRejectedOrTrusted freshManager.thumbs freshCert = CertificateStatus.unknown
      ∧ (getCertificateStatus freshManager freshCert).2 = CertificateStatus.rejected
      ∧ (getCertificateStatus freshManager freshCert).1.writtenFiles
        = [("pki/rejected/[fF].pem", freshCert)] := by
  decide

/-- C5 amended: a certificate in neither the trusted nor the rejected map
is written as a PEM file into the rejected folder, recorded in the
rejected map, and reported as rejected, and this happens for either value
of the untrustUnknownCertificate flag (the flag gates persistence only in
isCertificateTrusted, not here). -/
theorem unknown_persistence (m : ManagerModel) (certificate : Cert)
    (h : checkRejectedOrTrusted m.thumbs certificate = CertificateStatus.unknown) :
    (getCertificateStatus m certificate).2 = CertificateStatus.rejected
      ∧ (getCertificateStatus m certificate).1.writtenFiles
        = m.writtenFiles
          ++ [(rejectedFolder m ++ "/" ++ buildIdealCertificateName certificate ++ ".pem",
               certificate)]
      ∧ lookupKey (getCertificateStatus m certificate).1.thumbs.rejected
          certificate.fingerprint
        = some ⟨certificate,
            rejectedFolder m ++ "/" ++ buildIdealCertificateName certificate ++ ".pem"⟩
      ∧ (getCertificateStatus { m with untrustUnknownCertificate := false } certificate).2
        = CertificateStatus.rejected
      ∧ (getCertificateStatus { m with untrustUnknownCertificate := true } certificate).2
        = CertificateStatus.rejected := by
  refine ⟨?_, ?_, ?_, ?_, ?_⟩ <;>
    simp [getCertificateStatus, h, lookupKey_setKey]

/-- Witness for the amended C5 on a concrete fresh certificate. -/
theorem unknown_persistence_witness :
    (getCertificateStatus freshManager freshCert).2 = CertificateStatus.rejected
      ∧ (getCertificateStatus freshManager freshCert).1.writtenFiles
        = freshManager.writtenFiles
          ++ [(rejectedFolder freshManager ++ "/"
                ++ buildIdealCertificateName freshCert ++ ".pem", freshCert)]
      ∧ lookupKey (getCertificateStatus freshManager freshCert).1.thumbs.rejected
          freshCert.fingerprint
        = some ⟨freshCert,
            rejectedFolder freshManager ++ "/"
              ++ buildIdealCertificateName freshCert ++ ".pem"⟩
      ∧ (getCertificateStatus
          { freshManager with untrustUnknownCertificate := false } freshCert).2
        = CertificateStatus.rejected
      ∧ (getCertificateStatus
          { freshManager with untrustUnknownCertificate := true } freshCert).2
        = CertificateStatus.rejected :=
  unknown_persistence freshManager freshCert (by decide)

/-- The long-form length loop decodes exactly the listed bytes, big
endian, advancing the position past them. -/
theorem readBE_take (buf : List Nat) (bs : List Nat) :
    ∀ p acc : Nat, (buf.drop p).take bs.length = bs →
    readBE buf p bs.length acc
      = some (bs.foldl (fun a b => a * 256 + b) acc, p + bs.length) := by
  induction bs with
  | nil =>
    intro p acc _
    simp [readBE]
  | cons b rest ih =>
    intro p acc h
    cases hd : buf.drop p with
    | nil => rw [hd] at h; simp at h
    | cons x l2 =>
      rw [hd] at h
      simp only [List.length_cons, List.take_succ_cons, List.cons.injEq] at h
      obtain ⟨rfl, h2⟩ := h
      have hb : buf[p]? = some x := by
        have h0 : (buf.drop p)[0]? = some x := by rw [hd]; simp
        rw [List.getElem?_drop] at h0
        simpa using h0
      have hrest : (buf.drop (p + 1)).take rest.length = rest := by
        have hdd : buf.drop (p + 1) = l2 := by
          have := List.drop_drop 1 p buf
          rw [hd] at this
          simpa [Nat.add_comm] using this.symm
        rw [hdd]
        exact h2
      simp only [readBE, hb, List.length_cons, List.foldl_cons]
      rw [ih (p + 1) (acc * 256 + x) hrest]
      have harr : p + 1 + rest.length = p + (rest.length + 1) := by omega
      rw [harr]

/-- Long-form behaviour of readTag: with a length byte above 127
announcing n following bytes, the declared length is their big-endian
value and the returned position skips tag, length byte and the n bytes. -/
theorem readTag_longForm (buf : List Nat) (pos tag lenByte : Nat) (bs : List Nat)
    (htag : buf[pos]? = some tag)
    (hlen : buf[pos + 1]? = some lenByte)
    (hhigh : 127 < lenByte)
    (hn : bs.length = Nat.land lenByte 127)
    (hbytes : (buf.drop (pos + 2)).take bs.length = bs) :
    readTag buf pos
      = some { tag := tag, position := pos + 2 + bs.length,
               length := bs.foldl (fun a b => a * 256 + b) 0 } := by
  have hpos : pos < buf.length := by
    by_contra hc
    rw [List.getElem?_eq_none (by omega)] at htag
    exact absurd htag (by simp)
  unfold readTag
  rw [if_neg (by omega)]
  simp only [htag, hlen]
  rw [if_pos hhigh, ← hn, readBE_take buf bs (pos + 2) 0 hbytes]

/-- C7: readTag with a length byte whose high bit is set reads the low 7
bits as the count of following big-endian length bytes and advances past
them; on any buffer beginning 0x30 0x82 0x01 0x0A the decoded length is
266 and the returned position is 4. -/
theorem readTag_long_length (buf : List Nat) (pos tag lenByte : Nat) (bs : List Nat)
    (htag : buf[pos]? = some tag)
    (hlen : buf[pos + 1]? = some lenByte)
    (hhigh : 127 < lenByte)
    (hn : bs.length = Nat.land lenByte 127)
    (hbytes : (buf.drop (pos + 2)).take bs.length = bs) :
    readTag buf pos
        = some { tag := tag, position := pos + 2 + bs.length,
                 length := bs.foldl (fun a b => a * 256 + b) 0 }
      ∧ ∀ rest : List Nat, readTag (48 :: 130 :: 1 :: 10 :: rest) 0
        = some { tag := 48, position := 4, length := 266 } := by
  refine ⟨readTag_longForm buf pos tag lenByte bs htag hlen hhigh hn hbytes, ?_⟩
  intro rest
  have := readTag_longForm (48 :: 130 :: 1 :: 10 :: rest) 0 48 130 [1, 10]
    (by rfl) (by rfl) (by decide) (by decide) (by rfl)
  simpa using this

/-- Witness for C7 on the four-byte header buffer itself. -/
theorem readTag_long_length_witness :
    readTag [48, 130, 1, 10] 0
      = some { tag := 48, position := 0 + 2 + [1, 10].length,
               length := [1, 10].foldl (fun a b => a * 256 + b) 0 } :=
  (readTag_long_length [48, 130, 1, 10] 0 48 130 [1, 10] (by rfl) (by rfl) (by decide)
    (by decide) (by rfl)).1

/-- A successful big-endian length read is unchanged by appending bytes
after the buffer (all its reads land inside the original buffer). -/
theorem readBE_append (b rest : List Nat) :
    ∀ n p acc : Nat, ∀ r : Nat × Nat, readBE b p n acc = some r →
    readBE (b ++ rest) p n acc = some r := by
  intro n
  induction n with
  | zero =>
    intro p acc r h
    simpa [readBE] using h
  | succ k ih =>
    intro p acc r h
    simp only [readBE] at h ⊢
    cases hx : b[p]? with
    | none => rw [hx] at h; simp at h
    | some x =>
      rw [hx] at h
      have hlt : p < b.length := by
        by_contra hc
        rw [List.getElem?_eq_none (by omega)] at hx
        exact absurd hx (by simp)
      rw [List.getElem?_append_left hlt, hx]
      exact ih (p + 1) _ r h

/-- A successfully read leading block is unchanged by appending bytes
after the buffer. -/
theorem readTag_append (b rest : List Nat) (bi : BlockInfo)
    (h : readTag b 0 = some bi) : readTag (b ++ rest) 0 = some bi := by
  unfold readTag at h ⊢
  by_cases hb : b.length ≤ 0
  · rw [if_pos hb] at h; simp at h
  · rw [if_neg hb] at h
    rw [if_neg (by rw [List.length_append]; omega)]
    cases h0 : b[0]? with
    | none => rw [h0] at h; simp at h
    | some tag =>
      have h0lt : 0 < b.length := by omega
      rw [h0] at h
      rw [List.getElem?_append_left h0lt, h0]
      cases h1 : b[0 + 1]? with
      | none => rw [h1] at h; simp at h
      | some lenByte =>
        have h1lt : 0 + 1 < b.length := by
          by_contra hc
          rw [List.getElem?_eq_none (by omega)] at h1
          exact absurd h1 (by simp)
        rw [h1] at h
        rw [List.getElem?_append_left h1lt, h1]
        dsimp only at h ⊢
        by_cases hh : 127 < lenByte
        · rw [if_pos hh] at h ⊢
          cases hbe : readBE b (0 + 2) (Nat.land lenByte 127) 0 with
          | none => rw [hbe] at h; simp at h
          | some r =>
            rw [hbe] at h
            obtain ⟨len, pos2⟩ := r
            rw [readBE_append b rest _ (0 + 2) 0 (len, pos2) hbe]
            exact h
        · rw [if_neg hh] at h ⊢
          exact h

/-- A well-formed block is nonempty. -/
theorem tlvBlock_ne_nil (b : List Nat) (h : tlvBlock b = true) : b ≠ [] := by
  intro hb
  rw [hb] at h
  exact absurd h (by decide)

/-- A list of nonempty blocks never holds more blocks than bytes. -/
theorem length_le_flatten_length (blocks : List (List Nat))
    (h : ∀ b ∈ blocks, b ≠ []) : blocks.length ≤ blocks.flatten.length := by
  induction blocks with
  | nil => simp
  | cons b bs ih =>
    have hb : b ≠ [] := h b (by simp)
    have hb1 : 1 ≤ b.length := by
      cases b
      · exact absurd rfl hb
      · simp
    have hbs := ih (fun x hx => h x (by simp [hx]))
    simp only [List.flatten_cons, List.length_append, List.length_cons]
    omega

/-- The split loop applied to a concatenation of well-formed blocks
recovers exactly those blocks, given enough fuel. -/
theorem splitDerAux_flatten (blocks : List (List Nat)) :
    ∀ fuel : Nat, blocks ≠ [] → (∀ b ∈ blocks, tlvBlock b = true) →
    blocks.length ≤ fuel → splitDerAux fuel blocks.flatten = some blocks := by
  induction blocks with
  | nil => intro fuel hne; exact absurd rfl hne
  | cons b bs ih =>
    intro fuel _ hwf hfuel
    obtain ⟨f, rfl⟩ : ∃ f, fuel = f + 1 := ⟨fuel - 1, by simp at hfuel; omega⟩
    have hb : tlvBlock b = true := hwf b (by simp)
    unfold tlvBlock at hb
    cases hr : readTag b 0 with
    | none => rw [hr] at hb; simp at hb
    | some bi =>
      rw [hr] at hb
      have hlen : bi.position + bi.length = b.length := by simpa using hb
      have hflat : (b :: bs).flatten = b ++ bs.flatten := by simp
      rw [hflat]
      unfold splitDerAux
      rw [readTag_append b bs.flatten bi hr]
      simp only [hlen, List.take_left, List.drop_left]
      cases bs with
      | nil => simp
      | cons b2 bs2 =>
        have hb2ne : b2 ≠ [] := tlvBlock_ne_nil b2 (hwf b2 (by simp))
        have hne2 : ((b2 :: bs2).flatten).isEmpty = false := by
          cases hb2 : b2 with
          | nil => exact absurd hb2 hb2ne
          | cons x xs => simp [hb2]
        rw [if_neg (by rw [hne2]; exact Bool.false_ne_true)]
        rw [ih f (by simp) (fun x hx => hwf x (by simp [hx])
              : ∀ x ∈ b2 :: bs2, tlvBlock x = true)
            (by simp at hfuel ⊢; omega)]

/-- Every single well-formed block passes the combine sanity check. -/
theorem combineCheck_block (b : List Nat) (h : tlvBlock b = true) :
    combineCheck b = true := by
  have hbne : b ≠ [] := tlvBlock_ne_nil b h
  have hb1 : 1 ≤ b.length := by
    cases b
    · exact absurd rfl hbne
    · simp
  have hsplit : split_der b = some [b] := by
    unfold split_der
    have := splitDerAux_flatten [b] b.length (by simp) (by simpa using h)
      (by simpa using hb1)
    simpa using this
  unfold combineCheck
  rw [hsplit]
  unfold tlvBlock at h
  cases hr : readTag b 0 with
  | none => rw [hr] at h; simp at h
  | some bi =>
    rw [hr] at h
    have h2 : bi.position + bi.length = b.length := by simpa using h
    simp [hr, h2]

/-- combine_der of a list of well-formed blocks is their concatenation. -/
theorem combine_der_flatten (blocks : List (List Nat))
    (h : ∀ b ∈ blocks, tlvBlock b = true) :
    combine_der blocks = some blocks.flatten := by
  have hc : blocks.all combineCheck = true := by
    rw [List.all_eq_true]
    intro b hb
    exact combineCheck_block b (h b hb)
  simp [combine_der, hc]

/-- C8: over a buffer that is a concatenation of well-formed top-level
TLV blocks, combine_der of the split_der chain reproduces the buffer
byte for byte. -/
theorem split_combine_roundtrip (buf : List Nat) (blocks : List (List Nat))
    (hbuf : buf = blocks.flatten) (hne : blocks ≠ [])
    (hwf : ∀ b ∈ blocks, tlvBlock b = true) :
    (split_der buf).bind combine_der = some buf := by
  subst hbuf
  have hlen : blocks.length ≤ blocks.flatten.length :=
    length_le_flatten_length blocks (fun b hb => tlvBlock_ne_nil b (hwf b hb))
  have h1 : split_der blocks.flatten = some blocks := by
    unfold split_der
    exact splitDerAux_flatten blocks blocks.flatten.length hne hwf hlen
  rw [h1]
  exact combine_der_flatten blocks hwf

/-- Witness for C8 on a concrete two-certificate buffer. -/
theorem split_combine_roundtrip_witness :
    (split_der [48, 1, 170, 48, 2, 1, 2]).bind combine_der
      = some [48, 1, 170, 48, 2, 1, 2] :=
  split_combine_roundtrip [48, 1, 170, 48, 2, 1, 2] [[48, 1, 170], [48, 2, 1, 2]]
    (by decide) (by decide) (by decide)
